import Mathlib

/-!
Shallow embedding of `eutils.py` (a small utility library: functional folds,
interactive command-line prompts, JSON persistence helpers, and dict helpers).

Modelling conventions:
* Interactive functions take the stream of user input lines as a `List String`
  and return a triple `(result, remaining inputs, printed lines)`.  Reading
  from an exhausted stream is modelled as `PyError.eofError` (Python's
  `input()` raises `EOFError` there; within the provided input the model
  matches the source line by line).  User input is modelled over ASCII
  strings, so Python's `str.isnumeric` coincides with "non-empty and all
  decimal digits".
* Exact prompt punctuation is reproduced except that quote characters around
  interpolated values are dropped (the spec declares prompt text cosmetic).
* Python `dict`s are modelled as association lists in insertion order;
  assignment updates the value at the first occurrence of the key, `del`
  removes the entry.
* The filesystem seen by `dump`/`load` is an association list from paths to
  parsed JSON documents (`dump` only ever writes valid JSON).
* Errors raised by Python are `Except.error` results; a function that mutates
  its argument returns the new value, and returns the argument unchanged
  alongside the error when it raises before mutating.
-/

inductive PyError where
  | indexError (msg : String)
  | keyError
  | valueError
  | typeError
  | assertionError
  | eofError
  | fileNotFoundError
  deriving DecidableEq, Repr

/-- `foldr(f, b, la)` from the source:
`return b if len(la) == 0 else f(la[0], foldr(f, b, la[1:]))`. -/
def foldr {α β : Type} (f : α → β → β) (b : β) (la : List α) : β :=
  match la with
  | [] => b
  | a :: tl => f a (foldr f b tl)

/-- Nested pairs `(1, (2, (3, ())))` as produced by
`foldr(lambda a,b: (a,b), (), [1,2,3])` in the spec's example: `nil` is the
empty tuple seed, `cons a b` is the pair `(a, b)`. -/
inductive NestTup where
  | nil : NestTup
  | cons : Nat → NestTup → NestTup
  deriving DecidableEq, Repr

/-- Python `list.remove(v)`: drop the first occurrence of `v`; `none` models
the `ValueError` raised when `v` does not occur. -/
def listRemove {V : Type} [DecidableEq V] : List V → V → Option (List V)
  | [], _ => Option.none
  | x :: xs, v =>
    if x = v then Option.some xs else (listRemove xs v).map (fun ys => x :: ys)

/-- Python `d[k]` on an insertion-ordered association list; `none` models the
`KeyError` raised when `k` is absent. -/
def dictGet {K V : Type} [DecidableEq K] : List (K × List V) → K → Option (List V)
  | [], _ => Option.none
  | (k0, l0) :: tl, k => if k0 = k then Option.some l0 else dictGet tl k

/-- Python `d[k] = l`: update the value at the first occurrence of `k`
in place, appending a new entry when `k` is absent. -/
def dictSet {K V : Type} [DecidableEq K] :
    List (K × List V) → K → List V → List (K × List V)
  | [], k, l => [(k, l)]
  | (k0, l0) :: tl, k, l =>
    if k0 = k then (k0, l) :: tl else (k0, l0) :: dictSet tl k l

/-- Python `del d[k]`: remove the entry for `k`. -/
def dictDel {K V : Type} [DecidableEq K] :
    List (K × List V) → K → List (K × List V)
  | [], _ => []
  | (k0, l0) :: tl, k => if k0 = k then tl else (k0, l0) :: dictDel tl k

/-- `dict_remove(d, k, v)` from the source:
`d[k].remove(v); if len(d[k]) == 0: del d[k]`.
Returns the raised error (if any) together with the dict after the call
(`list.remove` mutates nothing when it raises, so the dict is returned
unchanged in the error cases). -/
def dict_remove {K V : Type} [DecidableEq K] [DecidableEq V]
    (d : List (K × List V)) (k : K) (v : V) :
    Except PyError Unit × List (K × List V) :=
  match dictGet d k with
  | Option.none => (Except.error PyError.keyError, d)
  | Option.some l =>
    match listRemove l v with
    | Option.none => (Except.error PyError.valueError, d)
    | Option.some l2 =>
      if l2.length = 0 then (Except.ok (), dictDel d k)
      else (Except.ok (), dictSet d k l2)

theorem listRemove_eq_none_iff {V : Type} [DecidableEq V] (l : List V) (v : V) :
    listRemove l v = Option.none ↔ v ∉ l := by
  induction l with
  | nil => simp [listRemove]
  | cons x xs ih =>
    by_cases hx : x = v
    · simp [listRemove, hx]
    · simp only [listRemove, if_neg hx, List.mem_cons]
      cases h : listRemove xs v with
      | none =>
        have hnot := ih.mp h
        simp only [Option.map_none', true_iff]
        intro hc
        rcases hc with hc | hc
        · exact hx hc.symm
        · exact hnot hc
      | some ys =>
        simp only [Option.map_some']
        constructor
        · intro hc; exact Option.noConfusion hc
        intro hc
        exfalso
        have hmem : v ∈ xs := by
          by_contra hn
          rw [ih.mpr hn] at h
          exact Option.noConfusion h
        exact hc (Or.inr hmem)

theorem listRemove_first {V : Type} [DecidableEq V] (l1 l2 : List V) (v : V)
    (h : v ∉ l1) : listRemove (l1 ++ v :: l2) v = Option.some (l1 ++ l2) := by
  induction l1 with
  | nil => simp [listRemove]
  | cons x xs ih =>
    have hx : ¬ x = v := fun hc => h (by simp [hc])
    have hxs : v ∉ xs := fun hc => h (by simp [hc])
    simp [listRemove, hx, ih hxs]

mutual

/-- A parsed JSON document, as stored in a dump file. -/
inductive Json where
  | null : Json
  | boolean : Bool → Json
  | int : Int → Json
  | str : String → Json
  | arr : JList → Json
  | obj : JObj → Json

/-- A JSON array, as its own inductive to keep the recursion structural. -/
inductive JList where
  | nil : JList
  | cons : Json → JList → JList

/-- A JSON object: the textual key/value pairs in document order
(duplicate keys can occur in a document). -/
inductive JObj where
  | nil : JObj
  | cons : String → Json → JObj → JObj

end

deriving instance DecidableEq for Json, JList, JObj
deriving instance Repr for Json, JList, JObj

mutual

/-- A Python value in the JSON-compatible fragment the persistence helpers
operate on (floats excluded; no claim involves serializing a float). -/
inductive PyVal where
  | none : PyVal
  | boolean : Bool → PyVal
  | int : Int → PyVal
  | str : String → PyVal
  | list : PyList → PyVal
  | tuple : PyList → PyVal
  | dict : PyDict → PyVal

/-- Elements of a Python list/tuple. -/
inductive PyList where
  | nil : PyList
  | cons : PyVal → PyList → PyList

/-- A Python dict in insertion order.  A real dict has pairwise distinct
keys; the operations below preserve that invariant. -/
inductive PyDict where
  | nil : PyDict
  | cons : PyVal → PyVal → PyDict → PyDict

end

deriving instance DecidableEq for PyVal, PyList, PyDict
deriving instance Repr for PyVal, PyList, PyDict

/-- `json.dump`'s coercion of a dict key to a JSON object key:
strings pass through, ints/bools/None use their JSON spelling, and any
other key raises `TypeError` (`none`). -/
def keyToString : PyVal → Option String
  | PyVal.str s => Option.some s
  | PyVal.int n => Option.some (toString n)
  | PyVal.boolean b => Option.some (if b then "true" else "false")
  | PyVal.none => Option.some "null"
  | _ => Option.none

mutual

/-- Serialization performed by `json.dump`: lists and tuples both become
arrays, dict keys are coerced with `keyToString`, unsupported keys make the
whole serialization raise `TypeError` (`none`). -/
def toJson : PyVal → Option Json
  | PyVal.none => Option.some Json.null
  | PyVal.boolean b => Option.some (Json.boolean b)
  | PyVal.int n => Option.some (Json.int n)
  | PyVal.str s => Option.some (Json.str s)
  | PyVal.list l => (toJsonList l).map Json.arr
  | PyVal.tuple l => (toJsonList l).map Json.arr
  | PyVal.dict d => (toJsonObj d).map Json.obj

def toJsonList : PyList → Option JList
  | PyList.nil => Option.some JList.nil
  | PyList.cons v tl =>
    match toJson v, toJsonList tl with
    | Option.some j, Option.some js => Option.some (JList.cons j js)
    | _, _ => Option.none

def toJsonObj : PyDict → Option JObj
  | PyDict.nil => Option.some JObj.nil
  | PyDict.cons k v tl =>
    match keyToString k, toJson v, toJsonObj tl with
    | Option.some s, Option.some j, Option.some o => Option.some (JObj.cons s j o)
    | _, _, _ => Option.none

end

/-- Python dict assignment `d[k] = v` on an insertion-ordered dict:
updates the value at the first occurrence of `k`, else appends. -/
def pyDictSet : PyDict → PyVal → PyVal → PyDict
  | PyDict.nil, k, v => PyDict.cons k v PyDict.nil
  | PyDict.cons k0 v0 tl, k, v =>
    if k0 = k then PyDict.cons k0 v tl else PyDict.cons k0 v0 (pyDictSet tl k v)

mutual

/-- Deserialization performed by `json.load`: arrays become lists, objects
become dicts built by successive assignment (so on duplicate document keys
the last value wins, at the first occurrence's position — exactly Python's
dict construction). -/
def jsonToPy : Json → PyVal
  | Json.null => PyVal.none
  | Json.boolean b => PyVal.boolean b
  | Json.int n => PyVal.int n
  | Json.str s => PyVal.str s
  | Json.arr l => PyVal.list (jsonToPyList l)
  | Json.obj o => PyVal.dict (jsonToPyObj PyDict.nil o)

def jsonToPyList : JList → PyList
  | JList.nil => PyList.nil
  | JList.cons j tl => PyList.cons (jsonToPy j) (jsonToPyList tl)

def jsonToPyObj : PyDict → JObj → PyDict
  | acc, JObj.nil => acc
  | acc, JObj.cons k j tl => jsonToPyObj (pyDictSet acc (PyVal.str k) (jsonToPy j)) tl

end

mutual

/-- Modelled from the spec: "a value structurally equal to what was dumped
(subject to JSON's representational limits — e.g., tuples become sequences,
non-string mapping keys become strings)".  Tuples are replaced by lists,
dict keys are replaced by their string coercion (with ordinary dict
semantics when two keys coerce to the same string), everything else is kept;
`none` when the value is not JSON-serializable. -/
def specNormalize : PyVal → Option PyVal
  | PyVal.none => Option.some PyVal.none
  | PyVal.boolean b => Option.some (PyVal.boolean b)
  | PyVal.int n => Option.some (PyVal.int n)
  | PyVal.str s => Option.some (PyVal.str s)
  | PyVal.list l => (specNormalizeList l).map PyVal.list
  | PyVal.tuple l => (specNormalizeList l).map PyVal.list
  | PyVal.dict d => (specNormalizeDict PyDict.nil d).map PyVal.dict

def specNormalizeList : PyList → Option PyList
  | PyList.nil => Option.some PyList.nil
  | PyList.cons v tl =>
    match specNormalize v, specNormalizeList tl with
    | Option.some v2, Option.some tl2 => Option.some (PyList.cons v2 tl2)
    | _, _ => Option.none

def specNormalizeDict : PyDict → PyDict → Option PyDict
  | acc, PyDict.nil => Option.some acc
  | acc, PyDict.cons k v tl =>
    match keyToString k, specNormalize v with
    | Option.some s, Option.some v2 =>
      specNormalizeDict (pyDictSet acc (PyVal.str s) v2) tl
    | _, _ => Option.none

end

mutual

theorem toJson_jsonToPy : ∀ (v : PyVal),
    (toJson v).map jsonToPy = specNormalize v
  | PyVal.none => rfl
  | PyVal.boolean _ => rfl
  | PyVal.int _ => rfl
  | PyVal.str _ => rfl
  | PyVal.list l => by
      have h := toJsonList_jsonToPyList l
      cases hj : toJsonList l with
      | none =>
        rw [hj] at h; simp only [Option.map_none'] at h
        simp [toJson, specNormalize, hj, ← h]
      | some js =>
        rw [hj] at h; simp only [Option.map_some'] at h
        simp [toJson, specNormalize, hj, ← h, jsonToPy]
  | PyVal.tuple l => by
      have h := toJsonList_jsonToPyList l
      cases hj : toJsonList l with
      | none =>
        rw [hj] at h; simp only [Option.map_none'] at h
        simp [toJson, specNormalize, hj, ← h]
      | some js =>
        rw [hj] at h; simp only [Option.map_some'] at h
        simp [toJson, specNormalize, hj, ← h, jsonToPy]
  | PyVal.dict d => by
      have h := toJsonObj_jsonToPyObj d PyDict.nil
      cases hj : toJsonObj d with
      | none =>
        rw [hj] at h; simp only [Option.map_none'] at h
        simp [toJson, specNormalize, hj, ← h]
      | some o =>
        rw [hj] at h; simp only [Option.map_some'] at h
        simp [toJson, specNormalize, hj, ← h, jsonToPy]

theorem toJsonList_jsonToPyList : ∀ (l : PyList),
    (toJsonList l).map jsonToPyList = specNormalizeList l
  | PyList.nil => rfl
  | PyList.cons v tl => by
      have hv := toJson_jsonToPy v
      have htl := toJsonList_jsonToPyList tl
      cases hj : toJson v with
      | none =>
        rw [hj] at hv; simp only [Option.map_none'] at hv
        simp [toJsonList, specNormalizeList, hj, ← hv]
      | some j =>
        rw [hj] at hv; simp only [Option.map_some'] at hv
        cases ht : toJsonList tl with
        | none =>
          rw [ht] at htl; simp only [Option.map_none'] at htl
          simp [toJsonList, specNormalizeList, hj, ht, ← hv, ← htl]
        | some js =>
          rw [ht] at htl; simp only [Option.map_some'] at htl
          simp [toJsonList, specNormalizeList, hj, ht, ← hv, ← htl, jsonToPyList]

theorem toJsonObj_jsonToPyObj : ∀ (d : PyDict) (acc : PyDict),
    (toJsonObj d).map (jsonToPyObj acc) = specNormalizeDict acc d
  | PyDict.nil, _ => rfl
  | PyDict.cons k v tl, acc => by
      have hv := toJson_jsonToPy v
      cases hk : keyToString k with
      | none => simp [toJsonObj, specNormalizeDict, hk]
      | some s =>
        cases hj : toJson v with
        | none =>
          rw [hj] at hv; simp only [Option.map_none'] at hv
          simp [toJsonObj, specNormalizeDict, hk, hj, ← hv]
        | some j =>
          rw [hj] at hv; simp only [Option.map_some'] at hv
          have htl :=
            toJsonObj_jsonToPyObj tl (pyDictSet acc (PyVal.str s) (jsonToPy j))
          cases ho : toJsonObj tl with
          | none =>
            rw [ho] at htl; simp only [Option.map_none'] at htl
            simp [toJsonObj, specNormalizeDict, hk, hj, ho, ← hv, ← htl]
          | some o =>
            rw [ho] at htl; simp only [Option.map_some'] at htl
            simp [toJsonObj, specNormalizeDict, hk, hj, ho, ← hv, ← htl,
              jsonToPyObj]

end

/-- The numeric value of a digit string (only meaningful when all
characters are digits). -/
def digitsVal (cs : List Char) : Nat :=
  cs.foldl (fun a c => a * 10 + (c.toNat - 48)) 0

/-- A non-empty all-digit character list, or `none`. -/
def digitsToNat? (cs : List Char) : Option Nat :=
  if cs ≠ [] ∧ cs.all Char.isDigit then Option.some (digitsVal cs)
  else Option.none

/-- The corrective message of `pick_from_list`'s input loop:
`"Please enter a number between 1 and {len(l)} > "`. -/
def pickRepromptMsg (n : Nat) : String :=
  "Please enter a number between 1 and " ++ toString n ++ " > "

/-- The loop guard of `pick_from_list`:
`answer.isnumeric() and int(answer) in range(1, len(l) + 1)`; on success the
zero-based `int(answer) - 1`.  (On ASCII input, `isnumeric` holds exactly
for non-empty all-digit strings, which is also exactly what `int` then
parses.) -/
def pickValid (n : Nat) (answer : String) : Option Nat :=
  match digitsToNat? answer.toList with
  | Option.some k => if 1 ≤ k ∧ k ≤ n then Option.some (k - 1) else Option.none
  | Option.none => Option.none

/-- The exit test of `pick_from_list`'s `while` loop on the current
`answer`: a valid numeric answer exits with its zero-based index, and an
invalid answer that is empty while a default is set breaks out with
`answer = default_index + 1` (so the final `int(answer) - 1` is
`default_index`; the guard in `pick_from_list` ensures `default_index ≥ 0`
whenever it is not `-1`).  `none` means the loop reads another line. -/
def pickExit (n : Nat) (d : Int) (answer : String) : Option Nat :=
  match pickValid n answer with
  | Option.some c => Option.some c
  | Option.none =>
    if answer = "" ∧ d ≠ -1 then Option.some d.toNat else Option.none

/-- The `while` loop of `pick_from_list` over the remaining input lines:
exit when `pickExit` fires, otherwise print the corrective message and read
the next line (end of input raises `EOFError`). -/
def pickLoop (n : Nat) (d : Int) :
    String → List String → List String →
    (Except PyError Nat) × List String × List String
  | answer, [], printed =>
    match pickExit n d answer with
    | Option.some c => (Except.ok c, [], printed)
    | Option.none =>
      (Except.error PyError.eofError, [], printed ++ [pickRepromptMsg n])
  | answer, a :: rest, printed =>
    match pickExit n d answer with
    | Option.some c => (Except.ok c, a :: rest, printed)
    | Option.none => pickLoop n d a rest (printed ++ [pickRepromptMsg n])

/-- The numbered line printed for item `el` at zero-based position `i`:
`"\t[{i + 1}]: {to_string(el)}"`. -/
def pickItemLine {α : Type} (to_string : α → String) (i : Nat) (el : α) : String :=
  "\t[" ++ toString (i + 1) ++ "]: " ++ to_string el

/-- The first input prompt of `pick_from_list`:
`"Enter choice (1 to {len(l)}{default_str}) > "` where `default_str` is
empty when no default is set and `", default is {default_index + 1}"`
otherwise. -/
def pickEnterMsg (n : Nat) (d : Int) : String :=
  "Enter choice (1 to " ++ toString n ++
    (if d = -1 then "" else ", default is " ++ toString (d + 1)) ++ ") > "

/-- `pick_from_list(l, prompt, to_string, default_index, return_element,
auto_return_single_element)` from the source.  The result is `Sum.inl`
the chosen element when `return_element` is true, else `Sum.inr` its
zero-based index.  The final `l[choice]` is looked up with `List.get?`,
erroring like Python would on an out-of-range index (the guard makes that
unreachable, see `pickLoop_lt`). -/
def pick_from_list {α : Type} (l : List α) (prompt : String)
    (to_string : α → String) (default_index : Int) (return_element : Bool)
    (auto_return_single_element : Bool) (inputs : List String) :
    (Except PyError (α ⊕ Nat)) × List String × List String :=
  if default_index ≠ -1 ∧ ¬(0 ≤ default_index ∧ default_index < l.length) then
    (Except.error (PyError.indexError "Default index outside list range."),
      inputs, [])
  else if h2 : auto_return_single_element ∧ l.length = 1 then
    (Except.ok (if return_element then Sum.inl (l.get ⟨0, by simp [h2.2]⟩)
      else Sum.inr 0), inputs, [])
  else
    let printed0 := prompt ::
      (l.enum.map (fun p => pickItemLine to_string p.1 p.2)) ++
      [pickEnterMsg l.length default_index]
    match inputs with
    | [] => (Except.error PyError.eofError, [], printed0)
    | a :: rest =>
      match pickLoop l.length default_index a rest [] with
      | (Except.error e, rest2, pr2) => (Except.error e, rest2, printed0 ++ pr2)
      | (Except.ok choice, rest2, pr2) =>
        if return_element then
          match l.get? choice with
          | Option.some x => (Except.ok (Sum.inl x), rest2, printed0 ++ pr2)
          | Option.none =>
            (Except.error (PyError.indexError "list index out of range"),
              rest2, printed0 ++ pr2)
        else (Except.ok (Sum.inr choice), rest2, printed0 ++ pr2)

/-- The accepted affirmative answers of `yes_no`. -/
def yesList : List String := ["y", "ye", "yes"]

/-- The accepted negative answers of `yes_no`. -/
def noList : List String := ["n", "no"]

/-- `yes_no`'s `(y/n)` indicator: the default answer is capitalized
(`'y'.upper() if default else 'y'`, and uppercase `N` only when the default
is exactly `False`). -/
def yesNoDefaultStr (default : Option Bool) : String :=
  "(" ++ (if default = Option.some true then "Y" else "y") ++ "/" ++
    (if default = Option.some false then "N" else "n") ++ ")"

/-- `yes_no`'s corrective message (quote punctuation dropped). -/
def yesNoRepromptMsg : String := "Please respond with yes or no. > "

/-- The exit test of `yes_no`'s `while answer not in yes + no` loop on the
current (lower-cased) answer: a recognized answer returns its boolean,
empty input with a set default returns the default (`default.getD false` is
that default), anything else (`none`) makes the loop read another line. -/
def yesNoExit (default : Option Bool) (answer : String) : Option Bool :=
  if yesList.contains answer ∨ noList.contains answer then
    Option.some (yesList.contains answer)
  else if answer = "" ∧ default.isSome then Option.some (default.getD false)
  else Option.none

/-- The `while answer not in yes + no` loop of `yes_no`: exit when
`yesNoExit` fires, otherwise prompt for a new (lower-cased) line. -/
def yesNoLoop (default : Option Bool) :
    String → List String → List String →
    (Except PyError Bool) × List String × List String
  | answer, [], printed =>
    match yesNoExit default answer with
    | Option.some b => (Except.ok b, [], printed)
    | Option.none =>
      (Except.error PyError.eofError, [], printed ++ [yesNoRepromptMsg])
  | answer, a :: rest, printed =>
    match yesNoExit default answer with
    | Option.some b => (Except.ok b, a :: rest, printed)
    | Option.none =>
      yesNoLoop default a.toLower rest (printed ++ [yesNoRepromptMsg])

/-- `yes_no(question, default)` from the source. -/
def yes_no (question : String) (default : Option Bool) (inputs : List String) :
    (Except PyError Bool) × List String × List String :=
  let pr0 := question ++ " " ++ yesNoDefaultStr default ++ " > "
  match inputs with
  | [] => (Except.error PyError.eofError, [], [pr0])
  | a :: rest => yesNoLoop default a.toLower rest [pr0]

theorem yesNoLoop_inputs_le (default : Option Bool) :
    ∀ (answer : String) (inputs printed : List String),
      (yesNoLoop default answer inputs printed).2.1.length ≤ inputs.length := by
  intro answer inputs
  induction inputs generalizing answer with
  | nil =>
    intro printed
    unfold yesNoLoop
    cases hx : yesNoExit default answer <;> simp [hx]
  | cons a rest ih =>
    intro printed
    unfold yesNoLoop
    cases hx : yesNoExit default answer with
    | some b => simp [hx]
    | none =>
      simp only [hx]
      exact Nat.le_trans (ih a.toLower _) (Nat.le_succ _)

theorem yes_no_inputs_le (q : String) (d : Option Bool) (inputs : List String) :
    (yes_no q d inputs).2.1.length ≤ inputs.length := by
  cases inputs with
  | nil => exact Nat.le_refl _
  | cons a rest =>
    exact Nat.le_trans (yesNoLoop_inputs_le d a.toLower rest _) (Nat.le_succ _)

/-- Python truthiness of `confirm_input`'s optional `default` argument
(`None` and the empty string are falsy). -/
def confirmTruthy (default : Option String) : Bool :=
  match default with
  | Option.none => false
  | Option.some s => if s = "" then false else true

/-- The first input prompt of `confirm_input` (quote punctuation around the
default dropped). -/
def confirmPrompt (prompt : String) (default : Option String) : String :=
  prompt ++ (if confirmTruthy default then
    " (default is " ++ default.getD "" ++ ") > " else " > ")

/-- The `while not yes_no(...)` loop of `confirm_input`: confirm the entered
text via `yes_no` (default yes); on rejection read a fresh line and repeat. -/
def confirmLoop (prompt : String) (res : String) (inputs : List String)
    (printed : List String) :
    (Except PyError String) × List String × List String :=
  match h : yes_no ("Input will be " ++ res ++ ". Continue?")
      (Option.some true) inputs with
  | (Except.error e, rest, pr) => (Except.error e, rest, printed ++ pr)
  | (Except.ok true, rest, pr) => (Except.ok res, rest, printed ++ pr)
  | (Except.ok false, rest, pr) =>
    match rest with
    | [] => (Except.error PyError.eofError, [], printed ++ pr ++ [prompt ++ " > "])
    | r :: rr => confirmLoop prompt r rr (printed ++ pr ++ [prompt ++ " > "])
  termination_by inputs.length
  decreasing_by
    have hle := yes_no_inputs_le ("Input will be " ++ res ++ ". Continue?")
      (Option.some true) inputs
    rw [h] at hle
    simp only [List.length_cons] at hle
    omega

/-- `confirm_input(prompt, default)` from the source. -/
def confirm_input (prompt : String) (default : Option String)
    (inputs : List String) :
    (Except PyError String) × List String × List String :=
  let pr0 := confirmPrompt prompt default
  match inputs with
  | [] => (Except.error PyError.eofError, [], [pr0])
  | res :: rest =>
    if confirmTruthy default ∧ res = "" then
      (Except.ok (default.getD ""), rest, [pr0])
    else
      match confirmLoop prompt res rest [] with
      | (r, rest2, pr) => (r, rest2, pr0 :: pr)

/-- The Python type objects `typed_input` may be called with (plus `type`
itself, which is what `type(float)` evaluates to in the source's
`if t == type(float)` test). -/
inductive PyType where
  | int
  | float
  | str
  | bool
  | noneType
  | type
  deriving DecidableEq, Repr

/-- A scalar Python value, the shape `typed_input` defaults and results
take.  Floats are exact here: the inputs a claim evaluates are short
decimal literals, which Python floats represent exactly or round in a way
no claim depends on. -/
inductive PyScalar where
  | none : PyScalar
  | boolean : Bool → PyScalar
  | int : Int → PyScalar
  | float : Rat → PyScalar
  | str : String → PyScalar
  | typeVal : PyType → PyScalar
  deriving DecidableEq, Repr

/-- Python `type(v)`. -/
def pyTypeOf : PyScalar → PyType
  | PyScalar.none => PyType.noneType
  | PyScalar.boolean _ => PyType.bool
  | PyScalar.int _ => PyType.int
  | PyScalar.float _ => PyType.float
  | PyScalar.str _ => PyType.str
  | PyScalar.typeVal _ => PyType.type

/-- Python truthiness (`if default:`): `None`, `False`, `0`, `0.0` and `""`
are falsy. -/
def pyTruthy : PyScalar → Bool
  | PyScalar.none => false
  | PyScalar.boolean b => b
  | PyScalar.int n => n != 0
  | PyScalar.float q => q != 0
  | PyScalar.str s => s != ""
  | PyScalar.typeVal _ => true

/-- `t.__name__`. -/
def typeName : PyType → String
  | PyType.int => "int"
  | PyType.float => "float"
  | PyType.str => "str"
  | PyType.bool => "bool"
  | PyType.noneType => "NoneType"
  | PyType.type => "type"

/-- `str(v)` as used to display a default in a prompt (display only; the
float rendering is not bit-faithful, and the spec declares prompt text
cosmetic). -/
def pyStr : PyScalar → String
  | PyScalar.none => "None"
  | PyScalar.boolean b => if b then "True" else "False"
  | PyScalar.int n => toString n
  | PyScalar.float q => toString q
  | PyScalar.str s => s
  | PyScalar.typeVal t => "<class " ++ typeName t ++ ">"

/-- Python `int(s)` on an ASCII line: optional sign then digits;
`none` models the `ValueError` on anything else. -/
def intParse (s : String) : Option Int :=
  match s.toList with
  | '-' :: rest => (digitsToNat? rest).map (fun n => -(n : Int))
  | '+' :: rest => (digitsToNat? rest).map (fun n => (n : Int))
  | cs => (digitsToNat? cs).map (fun n => (n : Int))

/-- The unsigned part of Python `float(s)` restricted to plain decimal
literals: `digits`, `digits.`, `.digits` or `digits.digits`
(`none` models the `ValueError` on anything else, e.g. a comma). -/
def floatCore (cs : List Char) : Option Rat :=
  match cs.splitOn '.' with
  | [ip] => (digitsToNat? ip).map (fun n => (n : Rat))
  | [ip, fp] =>
    if (ip ≠ [] ∨ fp ≠ []) ∧ ip.all Char.isDigit ∧ fp.all Char.isDigit then
      Option.some ((digitsVal ip : Rat) + (digitsVal fp : Rat) / (10 : Rat) ^ fp.length)
    else Option.none
  | _ => Option.none

/-- Python `float(s)` on a plain decimal literal with optional sign. -/
def floatParse (s : String) : Option Rat :=
  match s.toList with
  | '-' :: rest => (floatCore rest).map (fun q => -q)
  | '+' :: rest => floatCore rest
  | cs => floatCore cs

/-- The two exception kinds `t(answer)` can raise: `ValueError` (caught by
`typed_input`) and `TypeError` (not caught). -/
inductive ConvErr where
  | valueError
  | typeError
  deriving DecidableEq, Repr

/-- Python `t(answer)` for each modelled target type: `str` echoes the
input, `bool` of a string never raises (empty is `False`), calling
`NoneType` with an argument raises `TypeError`, and `type(answer)` returns
the class `str`. -/
def pyConvert (t : PyType) (s : String) : Except ConvErr PyScalar :=
  match t with
  | PyType.int =>
    match intParse s with
    | Option.some n => Except.ok (PyScalar.int n)
    | Option.none => Except.error ConvErr.valueError
  | PyType.float =>
    match floatParse s with
    | Option.some q => Except.ok (PyScalar.float q)
    | Option.none => Except.error ConvErr.valueError
  | PyType.str => Except.ok (PyScalar.str s)
  | PyType.bool => Except.ok (PyScalar.boolean (s != ""))
  | PyType.noneType => Except.error ConvErr.typeError
  | PyType.type => Except.ok (PyScalar.typeVal PyType.str)

/-- `typed_input`'s corrective message (quote punctuation dropped). -/
def typedRepromptMsg (t : PyType) : String :=
  "Please enter something of type " ++ typeName t ++ " > "

/-- One iteration of `typed_input`'s conversion loop on the current answer.
The source's comma normalization is guarded by `if t == type(float)`, and
`type(float)` is the metaclass `type` — not `float` — so the replacement
fires only when the target type is `type` itself. -/
def typedStep (t : PyType) (answer : String) : Except ConvErr PyScalar :=
  pyConvert t (if t = PyType.type then answer.replace "," "." else answer)

/-- The `while True` conversion loop of `typed_input`: a successful
conversion exits, an uncaught `TypeError` propagates, and a `ValueError`
prompts for a new line. -/
def typedLoop (t : PyType) :
    String → List String → List String →
    (Except PyError PyScalar) × List String × List String
  | answer, [], printed =>
    match typedStep t answer with
    | Except.ok v => (Except.ok v, [], printed)
    | Except.error ConvErr.typeError =>
      (Except.error PyError.typeError, [], printed)
    | Except.error ConvErr.valueError =>
      (Except.error PyError.eofError, [], printed ++ [typedRepromptMsg t])
  | answer, a :: rest, printed =>
    match typedStep t answer with
    | Except.ok v => (Except.ok v, a :: rest, printed)
    | Except.error ConvErr.typeError =>
      (Except.error PyError.typeError, a :: rest, printed)
    | Except.error ConvErr.valueError =>
      typedLoop t a rest (printed ++ [typedRepromptMsg t])

/-- The first input prompt of `typed_input` (quote punctuation around the
default dropped). -/
def typedPrompt (prompt : String) (default : PyScalar) : String :=
  prompt ++ (if pyTruthy default then
    " (default is " ++ pyStr default ++ ") > " else " > ")

/-- `typed_input(prompt, t, default)` from the source:
`if default: assert t == type(default)`, then prompt; empty input with a
truthy default returns the default, otherwise the conversion loop runs. -/
def typed_input (prompt : String) (t : PyType) (default : PyScalar)
    (inputs : List String) :
    (Except PyError PyScalar) × List String × List String :=
  if pyTruthy default ∧ pyTypeOf default ≠ t then
    (Except.error PyError.assertionError, inputs, [])
  else
    let pr0 := typedPrompt prompt default
    match inputs with
    | [] => (Except.error PyError.eofError, [], [pr0])
    | answer :: rest =>
      if pyTruthy default ∧ answer = "" then (Except.ok default, rest, [pr0])
      else
        match typedLoop t answer rest [] with
        | (r, rest2, pr) => (r, rest2, pr0 :: pr)

/-- The filesystem as `dump`/`load` see it: paths mapped to the parsed JSON
document stored at them. -/
abbrev FS := List (String × Json)

/-- `os.path.exists(p)`. -/
def fsExists : FS → String → Bool
  | [], _ => false
  | (q, _) :: tl, p => if q = p then true else fsExists tl p

/-- Reading the file at `p` (`none` when it does not exist). -/
def fsRead : FS → String → Option Json
  | [], _ => Option.none
  | (q, j) :: tl, p => if q = p then Option.some j else fsRead tl p

/-- Creating or overwriting the file at `p` with content `j`. -/
def fsWrite : FS → String → Json → FS
  | [], p, j => [(p, j)]
  | (q, k) :: tl, p, j =>
    if q = p then (q, j) :: tl else (q, k) :: fsWrite tl p j

/-- Removing the file at `p`. -/
def fsDelete : FS → String → FS
  | [], _ => []
  | (q, k) :: tl, p => if q = p then fsDelete tl p else (q, k) :: fsDelete tl p

/-- `os.rename(src, target)` (a no-op when `src` is missing; `dump` only
renames existing files). -/
def fsRename (fs : FS) (src target : String) : FS :=
  match fsRead fs src with
  | Option.none => fs
  | Option.some j => fsWrite (fsDelete fs src) target j

/-- The recursion of `rec_rename`, driven by explicit fuel: if
`path + "_old"` also exists, first move that file out of the way, then
rename `path` to `path + "_old"`. -/
def recRenameFuel : Nat → FS → String → FS
  | 0, fs, _ => fs
  | Nat.succ n, fs, path =>
    let new_path := path ++ "_old"
    let fs2 := if fsExists fs new_path then recRenameFuel n fs new_path else fs
    fsRename fs2 path new_path

/-- `rec_rename(path)` from `dump`.  The chain of existing `_old`-suffixed
paths has pairwise distinct members (their lengths strictly increase), so
its length is at most the number of files and `fs.length + 1` fuel is never
exhausted. -/
def rec_rename (fs : FS) (path : String) : FS :=
  recRenameFuel (fs.length + 1) fs path

/-- `json.dump(data, dump_file)` into an already-opened `path`:
serialization failure raises `TypeError`. -/
def dumpWrite (data : PyVal) (path : String) (fs : FS) (rest : List String) :
    Except PyError (FS × List String) :=
  match toJson data with
  | Option.some j => Except.ok (fsWrite fs path j, rest)
  | Option.none => Except.error PyError.typeError

/-- Python `==` between `dump`'s `choice` and an int literal: `choice` is
the picked element (a `str`) when `return_element` is true, and `str == int`
is `False` in Python; only an actual int index can compare equal. -/
def dumpChoiceEq (choice : String ⊕ Nat) (n : Int) : Bool :=
  match choice with
  | Sum.inl _ => false
  | Sum.inr i => (i : Int) == n

/-- `dump(data, path_to_file, overwrite)` from the source.  When the target
exists and `overwrite` is false it calls `pick_from_list` with the three
option strings and default arguments (so with `return_element=True`), then
compares the returned `choice` against `0`, `1` and `2`; an `if/elif` chain
with no `else`, falling through to the file write.  Returns the resulting
filesystem and the unconsumed input lines. -/
def dump (data : PyVal) (path_to_file : String) (overwrite : Bool) (fs : FS)
    (inputs : List String) : Except PyError (FS × List String) :=
  if ¬overwrite ∧ fsExists fs path_to_file then
    match pick_from_list ["Append with _old", "Overwrite", "Do nothing"]
        "File exists. What to do?" id (-1) true true inputs with
    | (Except.error e, _, _) => Except.error e
    | (Except.ok choice, rest, _) =>
      if dumpChoiceEq choice 0 then
        dumpWrite data path_to_file (rec_rename fs path_to_file) rest
      else if dumpChoiceEq choice 1 then dumpWrite data path_to_file fs rest
      else if dumpChoiceEq choice 2 then Except.ok (fs, rest)
      else dumpWrite data path_to_file fs rest
  else dumpWrite data path_to_file fs inputs

/-- `load(path_to_file)` from the source: `open` raises a not-found error
for a missing path; the stored document parses by construction (dump files
hold the JSON that was written). -/
def load (path_to_file : String) (fs : FS) : Except PyError PyVal :=
  match fsRead fs path_to_file with
  | Option.none => Except.error PyError.fileNotFoundError
  | Option.some j => Except.ok (jsonToPy j)

theorem pickValid_lt (n : Nat) (answer : String) (c : Nat)
    (h : pickValid n answer = Option.some c) : c < n := by
  unfold pickValid at h
  split at h
  · split at h
    · next hk =>
      have hc := Option.some.inj h
      omega
    · exact Option.noConfusion h
  · exact Option.noConfusion h

theorem pickExit_lt (n : Nat) (d : Int)
    (hd : d = -1 ∨ (0 ≤ d ∧ d < (n : Int))) (answer : String) (c : Nat)
    (h : pickExit n d answer = Option.some c) : c < n := by
  unfold pickExit at h
  split at h
  · next c0 hv =>
    have he := Option.some.inj h
    have := pickValid_lt n answer c0 hv
    omega
  · split at h
    · next hbrk =>
      have he := Option.some.inj h
      rcases hd with hd | hd
      · exact absurd hd hbrk.2
      · subst he; omega
    · exact Option.noConfusion h

theorem pickLoop_lt (n : Nat) (d : Int)
    (hd : d = -1 ∨ (0 ≤ d ∧ d < (n : Int))) :
    ∀ (answer : String) (inputs printed : List String) (c : Nat)
      (rest pr : List String),
      pickLoop n d answer inputs printed = (Except.ok c, rest, pr) → c < n := by
  intro answer inputs
  induction inputs generalizing answer with
  | nil =>
    intro printed c rest pr h
    unfold pickLoop at h
    cases hx : pickExit n d answer with
    | some c0 =>
      simp only [hx, Prod.mk.injEq, Except.ok.injEq] at h
      have := pickExit_lt n d hd answer c0 hx
      omega
    | none =>
      simp only [hx, Prod.mk.injEq] at h
      exact Except.noConfusion h.1
  | cons a rest0 ih =>
    intro printed c rest pr h
    unfold pickLoop at h
    cases hx : pickExit n d answer with
    | some c0 =>
      simp only [hx, Prod.mk.injEq, Except.ok.injEq] at h
      have := pickExit_lt n d hd answer c0 hx
      omega
    | none =>
      simp only [hx] at h
      exact ih a _ c rest pr h

theorem pickLoop_err (n : Nat) (d : Int) :
    ∀ (answer : String) (inputs printed : List String) (e : PyError)
      (rest pr : List String),
      pickLoop n d answer inputs printed = (Except.error e, rest, pr) →
      e = PyError.eofError := by
  intro answer inputs
  induction inputs generalizing answer with
  | nil =>
    intro printed e rest pr h
    unfold pickLoop at h
    cases hx : pickExit n d answer with
    | some c0 =>
      simp only [hx, Prod.mk.injEq] at h
      exact Except.noConfusion h.1
    | none =>
      simp only [hx, Prod.mk.injEq] at h
      exact (Except.error.inj h.1).symm
  | cons a rest0 ih =>
    intro printed e rest pr h
    unfold pickLoop at h
    cases hx : pickExit n d answer with
    | some c0 =>
      simp only [hx, Prod.mk.injEq] at h
      exact Except.noConfusion h.1
    | none =>
      simp only [hx] at h
      exact ih a _ e rest pr h

theorem fsRead_fsWrite (fs : FS) (p : String) (j : Json) :
    fsRead (fsWrite fs p j) p = Option.some j := by
  induction fs with
  | nil => simp [fsWrite, fsRead]
  | cons e tl ih =>
    obtain ⟨q, k⟩ := e
    by_cases hq : q = p
    · simp [fsWrite, fsRead, hq]
    · simp [fsWrite, fsRead, hq, ih]

/-- C5: `dict_remove(d, k, v)` removes exactly the first occurrence of `v`
from the list `d[k]` (the list decomposes as `l1 ++ v :: l2` with `v ∉ l1`
and becomes `l1 ++ l2`), deletes the key `k` when that list becomes empty,
raises `KeyError` when `k` is absent from `d`, and raises `ValueError`
(leaving `d` unchanged) when `k` is present but `v` does not occur in
`d[k]`. -/
theorem dict_remove_spec {K V : Type} [DecidableEq K] [DecidableEq V]
    (d : List (K × List V)) (k : K) (v : V) :
    (dictGet d k = Option.none →
      dict_remove d k v = (Except.error PyError.keyError, d)) ∧
    (∀ l, dictGet d k = Option.some l → v ∉ l →
      dict_remove d k v = (Except.error PyError.valueError, d)) ∧
    (∀ l1 l2, dictGet d k = Option.some (l1 ++ v :: l2) → v ∉ l1 →
      dict_remove d k v =
        (Except.ok (),
          if l1 ++ l2 = [] then dictDel d k else dictSet d k (l1 ++ l2))) := by
  refine ⟨?_, ?_, ?_⟩
  · intro h
    simp [dict_remove, h]
  · intro l hl hv
    simp [dict_remove, hl, (listRemove_eq_none_iff l v).mpr hv]
  · intro l1 l2 hl hv
    simp only [dict_remove, hl, listRemove_first l1 l2 v hv]
    by_cases he : l1 ++ l2 = []
    · simp [he]
    · rw [if_neg (fun hc => he (List.length_eq_zero.mp hc)), if_neg he]

/-- Witness for C5: removing 5 from {1: [5, 6]} keeps [6]; removing the
last 5 from {1: [5]} deletes the key; a missing key raises `KeyError`. -/
theorem dict_remove_spec_witness :
    dict_remove [(1, [5, 6])] 1 5 = (Except.ok (), [(1, [6])]) ∧
    dict_remove [(1, [5])] 1 5 = (Except.ok (), ([] : List (Nat × List Nat))) ∧
    dict_remove ([] : List (Nat × List Nat)) 1 5 =
      (Except.error PyError.keyError, []) := by
  refine ⟨?_, ?_, ?_⟩
  · have h := (dict_remove_spec [(1, [5, 6])] 1 5).2.2 [] [6] (by decide) (by decide)
    exact h.trans rfl
  · have h := (dict_remove_spec [(1, [5])] 1 5).2.2 [] [] (by decide) (by decide)
    exact h.trans rfl
  · exact (dict_remove_spec ([] : List (Nat × List Nat)) 1 5).1 (by decide)

/-- C6: `foldr(f, b, seq)` is the right-associative nesting
`f(seq[0], f(seq[1], ... f(seq[n-1], b)))` (i.e. the mathematical right
fold `List.foldr`), the empty sequence returns `b` unchanged, and
`foldr(lambda a,b: (a,b), (), [1,2,3])` builds `(1,(2,(3,())))`. -/
theorem foldr_spec :
    (∀ (α β : Type) (f : α → β → β) (b : β), foldr f b ([] : List α) = b) ∧
    (∀ (α β : Type) (f : α → β → β) (b : β) (la : List α),
      foldr f b la = List.foldr f b la) ∧
    foldr NestTup.cons NestTup.nil [1, 2, 3] =
      NestTup.cons 1 (NestTup.cons 2 (NestTup.cons 3 NestTup.nil)) := by
  refine ⟨fun α β f b => rfl, ?_, rfl⟩
  intro α β f b la
  induction la with
  | nil => rfl
  | cons a tl ih => simp [foldr, ih]

/-- C8: when `k` is present but `v` does not occur in the list `d[k]`,
`dict_remove(d, k, v)` raises `ValueError` and the dict is completely
unchanged (`list.remove` mutates nothing when it raises, so the entry for
`k` keeps its full list and no key is deleted). -/
theorem dict_remove_missing_value_unchanged {K V : Type}
    [DecidableEq K] [DecidableEq V]
    (d : List (K × List V)) (k : K) (v : V) (l : List V)
    (hl : dictGet d k = Option.some l) (hv : v ∉ l) :
    dict_remove d k v = (Except.error PyError.valueError, d) := by
  simp [dict_remove, hl, (listRemove_eq_none_iff l v).mpr hv]

/-- Witness for C8: removing the absent 4 from {2: [9, 8]} raises
`ValueError` and returns the dict exactly as it was. -/
theorem dict_remove_missing_value_unchanged_witness :
    dict_remove [(2, [9, 8])] 2 4 =
      (Except.error PyError.valueError, [(2, [9, 8])]) :=
  dict_remove_missing_value_unchanged [(2, [9, 8])] 2 4 [9, 8]
    (by decide) (by decide)

/-- C9: for every truthy default whose exact type differs from the target
type `t`, `typed_input` fails its `assert t == type(default)` before
printing any prompt or reading any input (nothing printed, inputs
unconsumed). -/
theorem typed_input_assert_fails (prompt : String) (t : PyType)
    (d : PyScalar) (inputs : List String)
    (h1 : pyTruthy d = true) (h2 : pyTypeOf d ≠ t) :
    typed_input prompt t d inputs =
      (Except.error PyError.assertionError, inputs, []) := by
  unfold typed_input
  rw [if_pos ⟨h1, h2⟩]

/-- Witness for C9: a truthy str default with target int fails the
assertion; the input line is still there and nothing was printed. -/
theorem typed_input_assert_fails_witness :
    typed_input "p" PyType.int (PyScalar.str "x") ["5"] =
      (Except.error PyError.assertionError, ["5"], []) :=
  typed_input_assert_fails "p" PyType.int (PyScalar.str "x") ["5"]
    (by decide) (by decide)

/-- C3 counterexample: the default `0` is set (not None) for target `int`
and the first input is empty, yet `typed_input` does not return the
default: `if default:` treats the falsy `0` as unset, so a conversion of
`""` is attempted, fails, and the function re-prompts (erroring only when
the input stream is exhausted). -/
theorem typed_input_zero_default_not_returned :
    typed_input "p" PyType.int (PyScalar.int 0) [""] =
      (Except.error PyError.eofError, [],
        ["p > ", typedRepromptMsg PyType.int]) := rfl

/-- C3 (amended): for every truthy default of exactly the target type,
`typed_input` returns it immediately on an empty first input (no conversion
attempted, no further input consumed), and for every non-empty-string
default, `confirm_input` returns it immediately on an empty first input
(no confirmation dialogue); falsy defaults such as `0` or `""` are treated
as unset. -/
theorem truthy_default_empty_input_returns_default
    (prompt : String) (t : PyType) (d : PyScalar) (s : String)
    (rest rest2 : List String)
    (h1 : pyTruthy d = true) (h2 : pyTypeOf d = t) (h3 : s ≠ "") :
    typed_input prompt t d ("" :: rest) =
      (Except.ok d, rest, [typedPrompt prompt d]) ∧
    confirm_input prompt (Option.some s) ("" :: rest2) =
      (Except.ok s, rest2, [confirmPrompt prompt (Option.some s)]) := by
  constructor
  · unfold typed_input
    rw [if_neg (fun hc => hc.2 h2)]
    simp [h1]
  · unfold confirm_input
    have ht : confirmTruthy (Option.some s) = true := by
      simp [confirmTruthy, h3]
    simp [ht]

/-- Witness for C3 (amended): default 3 with target int, and the string
default "d"; an empty first input returns each default at once. -/
theorem truthy_default_empty_input_returns_default_witness :
    typed_input "a" PyType.int (PyScalar.int 3) [""] =
      (Except.ok (PyScalar.int 3), [], [typedPrompt "a" (PyScalar.int 3)]) ∧
    confirm_input "a" (Option.some "d") ["", "z"] =
      (Except.ok "d", ["z"], [confirmPrompt "a" (Option.some "d")]) :=
  truthy_default_empty_input_returns_default "a" PyType.int
    (PyScalar.int 3) "d" [] ["z"] (by decide) (by decide) (by decide)

/-- C2 (code evaluated at the failing input): with target `float` and the
entered text `"3,5"`, `typed_input` performs no comma normalization — the
source's guard compares `t` against `type(float)`, which is the metaclass
`type`, never `float`, so for the float target the loop converts the raw
answer unchanged — the conversion fails and the function re-prompts instead
of returning 3.5; `"3,5"` is unparsable as a float while `"3.5"` parses. -/
theorem typed_input_float_comma_not_normalized :
    typed_input "x" PyType.float PyScalar.none ["3,5"] =
      (Except.error PyError.eofError, [],
        ["x > ", typedRepromptMsg PyType.float]) ∧
    (∀ s : String, typedStep PyType.float s = pyConvert PyType.float s) ∧
    floatParse "3,5" = Option.none ∧
    (floatParse "3.5").isSome = true :=
  ⟨rfl, fun _ => rfl, rfl, rfl⟩

/-- C1 (code evaluated at the failing inputs): with data `5`, an existing
target file holding `7` and `overwrite` unset, every one of the user's
three menu answers — `1` (rename), `2` (overwrite) and `3` (do nothing) —
ends with the file overwritten by `5`, and no renamed `f_old` file exists
afterwards: `pick_from_list` returns the chosen element (a `str`), the
`str == int` comparisons against `0`, `1` and `2` are all `False` in
Python, and the `if/elif` chain falls through to the write.  In particular
"Do nothing" does not abort and "Append with _old" does not rename. -/
theorem dump_choice_ignored_always_overwrites :
    dump (PyVal.int 5) "f" false [("f", Json.int 7)] ["1"] =
      Except.ok ([("f", Json.int 5)], []) ∧
    dump (PyVal.int 5) "f" false [("f", Json.int 7)] ["2"] =
      Except.ok ([("f", Json.int 5)], []) ∧
    dump (PyVal.int 5) "f" false [("f", Json.int 7)] ["3"] =
      Except.ok ([("f", Json.int 5)], []) :=
  ⟨rfl, rfl, rfl⟩

theorem pick_from_list_err_eof {α : Type} (l : List α) (prompt : String)
    (to_string : α → String) (d : Int) (re auto : Bool)
    (inputs : List String)
    (hd : d = -1 ∨ (0 ≤ d ∧ d < (l.length : Int))) :
    ∀ (e : PyError) (rest pr : List String),
      pick_from_list l prompt to_string d re auto inputs =
        (Except.error e, rest, pr) → e = PyError.eofError := by
  have hneg : ¬(d ≠ -1 ∧ ¬(0 ≤ d ∧ d < (l.length : Int))) := by
    rintro ⟨h1, h2⟩
    rcases hd with hd0 | hd0
    · exact h1 hd0
    · exact h2 hd0
  intro e rest pr
  cases inputs with
  | nil =>
    intro h
    unfold pick_from_list at h
    rw [if_neg hneg] at h
    split at h
    · simp only [Prod.mk.injEq] at h
      exact Except.noConfusion h.1
    · simp only [Prod.mk.injEq] at h
      exact (Except.error.inj h.1).symm
  | cons a rest1 =>
    intro h
    unfold pick_from_list at h
    rw [if_neg hneg] at h
    split at h
    · simp only [Prod.mk.injEq] at h
      exact Except.noConfusion h.1
    · dsimp only at h
      rcases hp : pickLoop l.length d a rest1 [] with ⟨r, rest2, pr2⟩
      rw [hp] at h
      cases r with
      | error e0 =>
        simp only [Prod.mk.injEq, Except.error.injEq] at h
        rw [← h.1]
        exact pickLoop_err l.length d a rest1 [] e0 rest2 pr2 hp
      | ok choice =>
        have hlt := pickLoop_lt l.length d hd a rest1 [] choice rest2 pr2 hp
        dsimp only at h
        cases re with
        | true =>
          rw [List.get?_eq_get hlt] at h
          simp at h
        | false =>
          simp at h

/-- C4: when `default_index` is set (not the `-1` sentinel) and is not a
valid index into `items` (`range(0, len(l))`), `pick_from_list` raises the
index error before any interaction — nothing is printed and the input
stream is untouched; and this is the only argument condition under which it
raises: under any other arguments the only possible failure is exhausting
the modelled input stream (where Python would simply keep prompting), never
a raised error. -/
theorem pick_from_list_default_index_spec {α : Type} (l : List α)
    (prompt : String) (to_string : α → String) (d : Int)
    (re auto : Bool) (inputs : List String) :
    (d ≠ -1 → ¬(0 ≤ d ∧ d < (l.length : Int)) →
      pick_from_list l prompt to_string d re auto inputs =
        (Except.error (PyError.indexError "Default index outside list range."),
          inputs, [])) ∧
    ((d = -1 ∨ (0 ≤ d ∧ d < (l.length : Int))) →
      ∀ (e : PyError) (rest pr : List String),
        pick_from_list l prompt to_string d re auto inputs =
          (Except.error e, rest, pr) → e = PyError.eofError) := by
  constructor
  · intro h1 h2
    unfold pick_from_list
    rw [if_pos ⟨h1, h2⟩]
  · intro hd
    exact pick_from_list_err_eof l prompt to_string d re auto inputs hd

/-- Witness for C4: a 3-element list with `default_index = 5` raises the
index error at once, leaving the input line unread and printing nothing. -/
theorem pick_from_list_default_index_spec_witness :
    pick_from_list (["a", "b", "c"] : List String) "p" id 5 true true ["1"] =
      (Except.error (PyError.indexError "Default index outside list range."),
        ["1"], []) :=
  (pick_from_list_default_index_spec (["a", "b", "c"] : List String)
    "p" id 5 true true ["1"]).1 (by decide) (by decide)

/-- C10: `-1` is `default_index`'s declared default value, so passing it
explicitly is literally the unset call; the precondition check does not
fire for `-1` — even on an empty list the call never raises an index error
(any failure is only input exhaustion) — the choice prompt built for `-1`
carries no default text, and on an empty input line the loop prints the
corrective message and reads the next line instead of selecting an
element. -/
theorem pick_from_list_unset_default_spec {α : Type} (l : List α)
    (prompt : String) (to_string : α → String) (re auto : Bool)
    (inputs : List String) :
    (∀ (e : PyError) (rest pr : List String),
      pick_from_list l prompt to_string (-1) re auto inputs =
        (Except.error e, rest, pr) → e = PyError.eofError) ∧
    pickEnterMsg l.length (-1) =
      "Enter choice (1 to " ++ toString l.length ++ ") > " ∧
    (l.length ≠ 1 →
      ∃ tail, (pick_from_list l prompt to_string (-1) re auto inputs).2.2 =
        prompt :: (l.enum.map fun p => pickItemLine to_string p.1 p.2) ++
          [pickEnterMsg l.length (-1)] ++ tail) ∧
    (∀ (n : Nat) (a : String) (rest printed : List String),
      pickLoop n (-1) "" (a :: rest) printed =
        pickLoop n (-1) a rest (printed ++ [pickRepromptMsg n])) := by
  refine ⟨?_, ?_, ?_, fun n a rest printed => rfl⟩
  · exact pick_from_list_err_eof l prompt to_string (-1) re auto inputs
      (Or.inl rfl)
  · simp [pickEnterMsg]
  · intro hne
    unfold pick_from_list
    rw [if_neg (fun hc => hc.1 rfl), dif_neg (fun hc => hne hc.2)]
    cases inputs with
    | nil => exact ⟨[], by simp⟩
    | cons a rest1 =>
      dsimp only
      rcases hp : pickLoop l.length (-1) a rest1 [] with ⟨r, rest2, pr2⟩
      cases r with
      | error e0 => exact ⟨pr2, by simp⟩
      | ok choice =>
        cases re with
        | true =>
          cases hg : l[choice]? with
          | none => exact ⟨pr2, by simp [hg]⟩
          | some x => exact ⟨pr2, by simp [hg]⟩
        | false => exact ⟨pr2, by simp⟩

/-- Witness for C10: a two-element list with `default_index = -1` prints
the default-free choice prompt, and an empty input line hands the loop the
next input line together with the corrective message. -/
theorem pick_from_list_unset_default_spec_witness :
    (∃ tail,
      (pick_from_list (["a", "b"] : List String) "p" id (-1) true true
          [""]).2.2 =
        "p" :: ((["a", "b"] : List String).enum.map fun p =>
            pickItemLine id p.1 p.2) ++
          [pickEnterMsg (["a", "b"] : List String).length (-1)] ++ tail) ∧
    pickLoop 2 (-1) "" ["2"] [] =
      pickLoop 2 (-1) "2" [] [pickRepromptMsg 2] := by
  constructor
  · exact (pick_from_list_unset_default_spec (["a", "b"] : List String)
      "p" id true true [""]).2.2.1 (by decide)
  · exact (pick_from_list_unset_default_spec (["a", "b"] : List String)
      "p" id true true [""]).2.2.2 2 "2" [] []

/-- C7: dumping a JSON-serializable value `v` to a fresh path (the file
does not exist, so no interaction happens and the input stream is
untouched) writes its serialization, and a subsequent load of that path
succeeds and returns exactly the value the spec describes: `v` up to
JSON's representational limits — the spec-modelled `specNormalize`, which
replaces tuples by lists and coerces non-string dict keys to strings. -/
theorem dump_load_roundtrip (v : PyVal) (j : Json) (path : String)
    (fs : FS) (inputs : List String) (hser : toJson v = Option.some j)
    (hfresh : fsExists fs path = false) :
    dump v path false fs inputs = Except.ok (fsWrite fs path j, inputs) ∧
    load path (fsWrite fs path j) = Except.ok (jsonToPy j) ∧
    specNormalize v = Option.some (jsonToPy j) := by
  refine ⟨?_, ?_, ?_⟩
  · unfold dump
    rw [if_neg ?hno]
    case hno =>
      rintro ⟨-, hex⟩
      rw [hfresh] at hex
      exact Bool.noConfusion hex
    unfold dumpWrite
    rw [hser]
  · unfold load
    rw [fsRead_fsWrite]
  · have h := toJson_jsonToPy v
    rw [hser] at h
    simpa using h.symm

/-- Witness for C7: the dict with int key 1 mapping to the tuple (2,):
dump to an empty filesystem writes the JSON object with textual key "1"
and an array, and load returns the dict with key "1" and a list value —
exactly the spec normalization of the original dict. -/
theorem dump_load_roundtrip_witness :
    dump (PyVal.dict (PyDict.cons (PyVal.int 1)
        (PyVal.tuple (PyList.cons (PyVal.int 2) PyList.nil)) PyDict.nil))
      "quick_dump.json" false [] [] =
      Except.ok ([("quick_dump.json",
        Json.obj (JObj.cons "1" (Json.arr (JList.cons (Json.int 2) JList.nil))
          JObj.nil))], []) ∧
    load "quick_dump.json" [("quick_dump.json",
        Json.obj (JObj.cons "1" (Json.arr (JList.cons (Json.int 2) JList.nil))
          JObj.nil))] =
      Except.ok (PyVal.dict (PyDict.cons (PyVal.str "1")
        (PyVal.list (PyList.cons (PyVal.int 2) PyList.nil)) PyDict.nil)) ∧
    specNormalize (PyVal.dict (PyDict.cons (PyVal.int 1)
        (PyVal.tuple (PyList.cons (PyVal.int 2) PyList.nil)) PyDict.nil)) =
      Option.some (PyVal.dict (PyDict.cons (PyVal.str "1")
        (PyVal.list (PyList.cons (PyVal.int 2) PyList.nil)) PyDict.nil)) := by
  have h := dump_load_roundtrip
    (PyVal.dict (PyDict.cons (PyVal.int 1)
      (PyVal.tuple (PyList.cons (PyVal.int 2) PyList.nil)) PyDict.nil))
    (Json.obj (JObj.cons "1" (Json.arr (JList.cons (Json.int 2) JList.nil))
      JObj.nil))
    "quick_dump.json" [] [] rfl rfl
  exact ⟨h.1, h.2.1, h.2.2⟩
